import Mathlib

/-!
Shallow embedding of the Bharat STT API server (main.py): the data model,
the POST /api/stt request handler and the GET /health handler, together
with theorems settling the specified claims about them.

The handler is embedded as a pure function over an oracle environment
recording the outcome of each effectful step (temporary-file creation,
reading the upload body, writing it, the model invocation, file removal),
and it returns both the HTTP outcome and a trace of filesystem/model
events, so that claims about cleanup and invocation counts are statable.
-/

set_option maxHeartbeats 1000000

namespace BharatSTT

/-- Python str.lower as applied to filename extensions (ASCII case folding). -/
def pyLower (s : String) : String := String.mk (s.toList.map Char.toLower)

/-- Python whitespace characters relevant to str.strip (space, tab, newline,
carriage return, vertical tab, form feed). -/
def isPySpace (c : Char) : Bool :=
  c == ' ' || c == '\t' || c == '\n' || c == '\r' || c == '\x0b' || c == '\x0c'

/-- Python str.strip with no argument: remove leading and trailing whitespace. -/
def pyStrip (s : String) : String :=
  String.mk (((s.toList.dropWhile isPySpace).reverse.dropWhile isPySpace).reverse)

/-- Python str.rfind for a single character: the highest index at which the
character occurs, or -1 when it does not occur. -/
def pyRfind (l : List Char) (c : Char) : Int :=
  match l.reverse.findIdx? (fun d => d == c) with
  | none => -1
  | some i => (l.length : Int) - 1 - (i : Int)

/-- os.path.splitext on a posix path: split off the extension beginning at the
last dot, provided that dot lies after the last path separator and at least one
character of the basename before it is not a dot (so dotfiles such as .bashrc
have no extension). Mirrors posixpath.splitext. -/
def splitext (p : String) : String × String :=
  let l := p.toList
  let sepIndex := pyRfind l '/'
  let dotIndex := pyRfind l '.'
  if sepIndex < dotIndex then
    let between := (l.drop (sepIndex + 1).toNat).take (dotIndex - sepIndex - 1).toNat
    if between.any (fun c => c != '.') then
      (String.mk (l.take dotIndex.toNat), String.mk (l.drop dotIndex.toNat))
    else (p, "")
  else (p, "")

/-- The ASCII single-quote character as a one-character string, used to build
the exact text of the f-string error messages without a literal quote. -/
def pyQuote : String := String.mk [Char.ofNat 39]

/-- Python repr of a list of strings, as f-string interpolation renders it:
single-quoted elements, comma-space separated, in square brackets. -/
def pyListRepr (l : List String) : String :=
  "[" ++ String.intercalate ", " (l.map (fun s => pyQuote ++ s ++ pyQuote)) ++ "]"

/-- The SUPPORTED_LANGUAGES dict of main.py as an insertion-ordered
association list from language code to display name. -/
def SUPPORTED_LANGUAGES : List (String × String) :=
  [("hi", "Hindi"), ("en", "English"), ("ta", "Tamil"), ("te", "Telugu"),
   ("mr", "Marathi"), ("bn", "Bengali"), ("gu", "Gujarati"), ("kn", "Kannada"),
   ("ml", "Malayalam"), ("pa", "Punjabi")]

/-- The allowed_formats list of the handler. -/
def allowed_formats : List String := [".m4a", ".wav", ".mp3", ".ogg", ".flac"]

/-- Detail string of the 503 raised when the model is None. -/
def modelNotLoadedDetail : String := "Model not loaded. Server starting..."

/-- Detail string of the 400 raised for an unsupported language code; the
f-string interpolates the code and list(SUPPORTED_LANGUAGES.keys()). -/
def languageErrorDetail (language : String) : String :=
  "Language " ++ pyQuote ++ language ++ pyQuote ++ " not supported. Use: " ++
    pyListRepr (SUPPORTED_LANGUAGES.map Prod.fst)

/-- Detail string of the 400 raised for a disallowed file extension; the
f-string interpolates the allowed_formats list. -/
def formatErrorDetail : String :=
  "Invalid format. Allowed: " ++ pyListRepr allowed_formats

/-- A request to POST /api/stt: the upload filename and the language form
field (none when the field is absent, in which case FastAPI applies the
declared default "hi"). -/
structure Request where
  filename : String
  language : Option String
deriving DecidableEq

/-- The dict returned by model.transcribe, reduced to the one key the
handler reads. -/
structure TranscribeResult where
  text : String
deriving DecidableEq

/-- The JSON body of the 200 response, with exactly the five keys the
handler emits. -/
structure SuccessBody where
  success : Bool
  text : String
  language : String
  language_name : String
  filename : String
deriving DecidableEq

/-- What the request handler produces: a 200 JSONResponse, an HTTPException
converted by the framework to a structured JSON error body with its status
code, or an exception escaping the handler as an unhandled fault. -/
inductive Outcome where
  | success (body : SuccessBody)
  | httpError (statusCode : Nat) (detail : String)
  | unhandledError (exnType varName : String)
deriving DecidableEq

/-- Filesystem and model events observable during one request. -/
inductive Event where
  | tempCreated (path : String)
  | staged (path : String)
  | transcribeCalled (path language : String)
  | removed (path : String)
  | removeFailed (path : String)
deriving DecidableEq

/-- Oracle environment for one request: the process model state and the
outcome of each effectful step the handler performs, in program order. -/
structure Env where
  modelLoaded : Bool
  tmpName : Except String String
  readResult : Except String String
  writeResult : Except String Unit
  transcribe : String → String → Except String TranscribeResult
  removeResult : Except String Unit

/-- The finally block of the handler, entered with temp_file set and
temp_path bound (so staging succeeded and the file exists): os.remove the
temp file; on failure log a warning and swallow it, leaving the pending
outcome unchanged. -/
def cleanupFinally (env : Env) (path : String) (out : Outcome) (evs : List Event) :
    Outcome × List Event :=
  match env.removeResult with
  | Except.ok _ => (out, evs ++ [Event.removed path])
  | Except.error _ => (out, evs ++ [Event.removeFailed path])

/-- The POST /api/stt handler of main.py, step for step:
model check (503), language check against SUPPORTED_LANGUAGES (400),
extension check against allowed_formats after lower-casing (400); then the
try block: NamedTemporaryFile creation, audio.read, write, temp_path
binding, model.transcribe, result text strip, response construction; the
except block turning any exception into HTTPException 500 whose detail
embeds str(e); and the finally block deleting the temp file.
When creation of the temporary file itself fails, temp_file is still None,
so the except block yields the 500 and the finally block skips cleanup.
When audio.read or temp_file.write fails after the file was created,
temp_path was never assigned, so evaluating os.path.exists(temp_path) in
the finally block raises UnboundLocalError, which replaces the pending
HTTPException and escapes the handler; the orphaned file is not removed.
The KeyError arm mirrors the dict subscript SUPPORTED_LANGUAGES[language],
unreachable after validation; str of a KeyError is the repr of the key. -/
def speech_to_text (env : Env) (req : Request) : Outcome × List Event :=
  let language := req.language.getD "hi"
  if env.modelLoaded = false then
    (Outcome.httpError 503 modelNotLoadedDetail, [])
  else if (List.lookup language SUPPORTED_LANGUAGES).isNone then
    (Outcome.httpError 400 (languageErrorDetail language), [])
  else
    let file_ext := pyLower (splitext req.filename).2
    if (allowed_formats.contains file_ext) = false then
      (Outcome.httpError 400 formatErrorDetail, [])
    else
      match env.tmpName with
      | Except.error e =>
          (Outcome.httpError 500 ("Transcription failed: " ++ e), [])
      | Except.ok temp_path =>
          match env.readResult with
          | Except.error _ =>
              (Outcome.unhandledError "UnboundLocalError" "temp_path",
               [Event.tempCreated temp_path])
          | Except.ok _content =>
              match env.writeResult with
              | Except.error _ =>
                  (Outcome.unhandledError "UnboundLocalError" "temp_path",
                   [Event.tempCreated temp_path])
              | Except.ok _ =>
                  let evs := [Event.tempCreated temp_path, Event.staged temp_path]
                  match env.transcribe temp_path language with
                  | Except.error e =>
                      cleanupFinally env temp_path
                        (Outcome.httpError 500 ("Transcription failed: " ++ e))
                        (evs ++ [Event.transcribeCalled temp_path language])
                  | Except.ok result =>
                      let transcribed_text := pyStrip result.text
                      match List.lookup language SUPPORTED_LANGUAGES with
                      | some language_name =>
                          cleanupFinally env temp_path
                            (Outcome.success
                              { success := true, text := transcribed_text,
                                language := language, language_name := language_name,
                                filename := req.filename })
                            (evs ++ [Event.transcribeCalled temp_path language])
                      | none =>
                          cleanupFinally env temp_path
                            (Outcome.httpError 500
                              ("Transcription failed: " ++ pyQuote ++ language ++ pyQuote))
                            (evs ++ [Event.transcribeCalled temp_path language])

/-- The JSON body of GET /health. -/
structure HealthBody where
  ok : Bool
  status : String
  model_loaded : Bool
  model_type : String
deriving DecidableEq

/-- The GET /health handler of main.py, parameterised by whether the
startup model load succeeded (model is not None). -/
def health_check (modelLoaded : Bool) : HealthBody :=
  { ok := true, status := "running", model_loaded := modelLoaded,
    model_type := "whisper-base" }

/-- Whether an event is a removal attempt (successful or failed) on the
given path. -/
def isRemoveEvent (p : String) : Event → Bool
  | Event.removed p2 => p2 == p
  | Event.removeFailed p2 => p2 == p
  | _ => false

/-- Number of removal attempts on the given path in a trace. -/
def removeEvents (evs : List Event) (p : String) : Nat :=
  evs.countP (isRemoveEvent p)

/-- Whether an event is a model invocation. -/
def isTranscribeEvent : Event → Bool
  | Event.transcribeCalled _ _ => true
  | _ => false

/-- Number of model invocations in a trace. -/
def transcribeCalls (evs : List Event) : Nat :=
  evs.countP isTranscribeEvent

/-- A model function returning a fixed transcription with surrounding
whitespace, for concrete witnesses. -/
def demoTranscribe : String → String → Except String TranscribeResult :=
  fun _ _ => Except.ok { text := "  namaste duniya  " }

/-- An environment in which every step succeeds. -/
def envOk : Env :=
  { modelLoaded := true, tmpName := Except.ok "/tmp/tmp123.wav",
    readResult := Except.ok "RIFFbytes", writeResult := Except.ok (),
    transcribe := demoTranscribe, removeResult := Except.ok () }

/-- envOk with a failing model invocation. -/
def envFail : Env :=
  { envOk with transcribe := fun _ _ => Except.error "Failed to load audio" }

/-- envOk with the model unavailable. -/
def envDown : Env :=
  { envOk with modelLoaded := false }

/-- envOk in which writing the upload to the created temporary file fails. -/
def envWriteFail : Env :=
  { envOk with writeResult := Except.error "No space left on device" }

/-- A well-formed request: upper-case extension of an allowed format. -/
def reqOk : Request := { filename := "recording.WAV", language := some "hi" }

/-- A request with an unsupported language code. -/
def reqBadLang : Request := { filename := "a.wav", language := some "xx" }

/-- A request with a disallowed extension. -/
def reqBadExt : Request := { filename := "notes.txt", language := some "hi" }

/-- A request with the language form field absent. -/
def reqNoLang : Request := { filename := "a.mp3", language := none }

/-- Helper: toList distributes over string append. -/
theorem toList_append (s t : String) : (s ++ t).toList = s.toList ++ t.toList :=
  String.data_append s t

/-- Helper: a substring of t is a substring of s ++ t. -/
theorem infix_toList_append (s t : String) (a : List Char)
    (h : a <:+: t.toList) : a <:+: (s ++ t).toList := by
  rw [toList_append]
  exact h.trans (List.suffix_append s.toList t.toList).isInfix

/-- Helper: every supported language code occurs in the language error
detail, whatever the rejected code was. -/
theorem mem_languageErrorDetail (language : String) :
    ∀ c ∈ SUPPORTED_LANGUAGES.map Prod.fst,
      c.toList <:+: (languageErrorDetail language).toList := by
  intro c hc
  have h2 : c.toList <:+: (pyListRepr (SUPPORTED_LANGUAGES.map Prod.fst)).toList := by
    simp only [SUPPORTED_LANGUAGES, List.map, List.mem_cons, List.not_mem_nil,
      or_false] at hc
    rcases hc with rfl | rfl | rfl | rfl | rfl | rfl | rfl | rfl | rfl | rfl <;> decide
  have e : languageErrorDetail language =
      ("Language " ++ pyQuote ++ language ++ pyQuote ++ " not supported. Use: ") ++
        pyListRepr (SUPPORTED_LANGUAGES.map Prod.fst) := rfl
  rw [e]
  exact infix_toList_append _ _ _ h2

/-- Claim C2 evidence: with the model loaded, a supported language and an
allowed extension, when the temporary file was created but writing the
upload bytes to it fails, the handler does not return a structured JSON
error: evaluating temp_path in the finally block raises UnboundLocalError,
which escapes the handler, and the created file is never removed. -/
theorem stt_staging_failure_unhandled :
    speech_to_text envWriteFail { filename := "a.wav", language := some "hi" } =
      (Outcome.unhandledError "UnboundLocalError" "temp_path",
       [Event.tempCreated "/tmp/tmp123.wav"]) := by
  decide

/-- Claim C3: with the model loaded, a language code outside the registry
is rejected with 400 before any staging or model invocation (the event
trace is empty), and the detail message mentions every supported code. -/
theorem stt_unsupported_language (env : Env) (req : Request)
    (hm : env.modelLoaded = true)
    (hl : List.lookup (req.language.getD "hi") SUPPORTED_LANGUAGES = none) :
    speech_to_text env req =
      (Outcome.httpError 400 (languageErrorDetail (req.language.getD "hi")), []) ∧
    ∀ c ∈ SUPPORTED_LANGUAGES.map Prod.fst,
      c.toList <:+: (languageErrorDetail (req.language.getD "hi")).toList := by
  refine ⟨?_, mem_languageErrorDetail _⟩
  simp [speech_to_text, hm, hl]

/-- Witness for stt_unsupported_language at the concrete code xx. -/
theorem stt_unsupported_language_witness :
    speech_to_text envOk reqBadLang =
      (Outcome.httpError 400 (languageErrorDetail "xx"), []) ∧
    ∀ c ∈ SUPPORTED_LANGUAGES.map Prod.fst,
      c.toList <:+: (languageErrorDetail "xx").toList :=
  stt_unsupported_language envOk reqBadLang rfl rfl

/-- Claim C4: with the model loaded and a supported language, a filename
whose lower-cased extension is outside allowed_formats is rejected with
400 before any staging (the event trace is empty), and the detail message
mentions every allowed format; matching is on the lower-cased extension,
hence case-insensitive. -/
theorem stt_bad_extension (env : Env) (req : Request) (display : String)
    (hm : env.modelLoaded = true)
    (hl : List.lookup (req.language.getD "hi") SUPPORTED_LANGUAGES = some display)
    (hf : allowed_formats.contains (pyLower (splitext req.filename).2) = false) :
    speech_to_text env req = (Outcome.httpError 400 formatErrorDetail, []) ∧
    ∀ f ∈ allowed_formats, f.toList <:+: formatErrorDetail.toList := by
  constructor
  · have hf2 : pyLower (splitext req.filename).2 ∉ allowed_formats := by
      simpa using hf
    simp [speech_to_text, hm, hl, hf2]
  · decide

/-- Witness for stt_bad_extension at the concrete filename notes.txt. -/
theorem stt_bad_extension_witness :
    speech_to_text envOk reqBadExt = (Outcome.httpError 400 formatErrorDetail, []) ∧
    ∀ f ∈ allowed_formats, f.toList <:+: formatErrorDetail.toList :=
  stt_bad_extension envOk reqBadExt "Hindi" rfl rfl (by decide)

/-- Claim C10: GET /health returns ok true and status running in every
process state, including when the model failed to load; only model_loaded
reflects model readiness, so a probe checking only ok cannot detect a
configuration failure. -/
theorem health_always_running (b : Bool) :
    (health_check b).ok = true ∧ (health_check b).status = "running" ∧
    (health_check b).model_loaded = b ∧
    (health_check false).ok = (health_check true).ok := by
  refine ⟨rfl, rfl, rfl, rfl⟩

/-- Claim C5: when the model failed to load, GET /health reports
model_loaded false, and POST /api/stt returns 503 for every input, with an
empty event trace: no staging, no validation side effect, no model
invocation. -/
theorem stt_model_unavailable (env : Env) (req : Request)
    (hm : env.modelLoaded = false) :
    (health_check env.modelLoaded).model_loaded = false ∧
    speech_to_text env req = (Outcome.httpError 503 modelNotLoadedDetail, []) := by
  constructor
  · simp [health_check, hm]
  · simp [speech_to_text, hm]

/-- Witness for stt_model_unavailable at a concrete environment and request. -/
theorem stt_model_unavailable_witness :
    (health_check envDown.modelLoaded).model_loaded = false ∧
    speech_to_text envDown reqOk = (Outcome.httpError 503 modelNotLoadedDetail, []) :=
  stt_model_unavailable envDown reqOk rfl

/-- Claim C1: once staging succeeded (temporary file created, upload read
and written), every exit path of the request performs exactly one removal
attempt on the staged path, and the outcome returned to the client does
not depend on whether that removal succeeds or fails. -/
theorem stt_cleanup_exactly_once (env : Env) (req : Request)
    (r : Except String Unit) (display p content : String)
    (hm : env.modelLoaded = true)
    (hl : List.lookup (req.language.getD "hi") SUPPORTED_LANGUAGES = some display)
    (hf : allowed_formats.contains (pyLower (splitext req.filename).2) = true)
    (ht : env.tmpName = Except.ok p)
    (hr : env.readResult = Except.ok content)
    (hw : env.writeResult = Except.ok ()) :
    removeEvents (speech_to_text env req).2 p = 1 ∧
    (speech_to_text { env with removeResult := r } req).1 =
      (speech_to_text env req).1 := by
  have hf2 : pyLower (splitext req.filename).2 ∈ allowed_formats := by simpa using hf
  cases htr : env.transcribe p (req.language.getD "hi") <;>
    cases hrm : env.removeResult <;> cases hrr : r <;>
      simp [speech_to_text, cleanupFinally, hm, hl, hf2, ht, hr, hw, htr, hrm, hrr,
        removeEvents, isRemoveEvent, List.countP_cons, List.countP_nil,
        List.countP_append]

/-- Witness for stt_cleanup_exactly_once: a succeeding run in which the
alternative removal outcome is a failure. -/
theorem stt_cleanup_exactly_once_witness :
    removeEvents (speech_to_text envOk reqOk).2 "/tmp/tmp123.wav" = 1 ∧
    (speech_to_text { envOk with removeResult := Except.error "Permission denied" }
        reqOk).1 = (speech_to_text envOk reqOk).1 :=
  stt_cleanup_exactly_once envOk reqOk (Except.error "Permission denied")
    "Hindi" "/tmp/tmp123.wav" "RIFFbytes" rfl rfl (by decide) rfl rfl rfl

/-- Claim C6: on the happy path the endpoint returns 200 with exactly the
five fields success true, the stripped text, the requested language code,
the display name the registry holds for that code, and the original upload
filename. -/
theorem stt_success_response (env : Env) (req : Request)
    (display p content : String) (result : TranscribeResult)
    (hm : env.modelLoaded = true)
    (hl : List.lookup (req.language.getD "hi") SUPPORTED_LANGUAGES = some display)
    (hf : allowed_formats.contains (pyLower (splitext req.filename).2) = true)
    (ht : env.tmpName = Except.ok p)
    (hr : env.readResult = Except.ok content)
    (hw : env.writeResult = Except.ok ())
    (htr : env.transcribe p (req.language.getD "hi") = Except.ok result) :
    (speech_to_text env req).1 = Outcome.success
      { success := true, text := pyStrip result.text,
        language := req.language.getD "hi", language_name := display,
        filename := req.filename } := by
  have hf2 : pyLower (splitext req.filename).2 ∈ allowed_formats := by simpa using hf
  cases hrm : env.removeResult <;>
    simp [speech_to_text, cleanupFinally, hm, hl, hf2, ht, hr, hw, htr, hrm]

/-- Witness for stt_success_response at a concrete succeeding run. -/
theorem stt_success_response_witness :
    (speech_to_text envOk reqOk).1 = Outcome.success
      { success := true, text := pyStrip "  namaste duniya  ",
        language := "hi", language_name := "Hindi",
        filename := "recording.WAV" } :=
  stt_success_response envOk reqOk "Hindi" "/tmp/tmp123.wav" "RIFFbytes"
    { text := "  namaste duniya  " } rfl rfl (by decide) rfl rfl rfl rfl

/-- Helper: str.strip removes characters only at the two ends, and every
removed character is whitespace. -/
theorem pyStrip_sandwich (s : String) :
    ∃ a b, s.toList = a ++ (pyStrip s).toList ++ b ∧
      a.all isPySpace = true ∧ b.all isPySpace = true := by
  refine ⟨s.toList.takeWhile isPySpace,
    ((s.toList.dropWhile isPySpace).reverse.takeWhile isPySpace).reverse,
    ?_, ?_, ?_⟩
  · have e : (pyStrip s).toList =
        ((s.toList.dropWhile isPySpace).reverse.dropWhile isPySpace).reverse := rfl
    have h1 := List.takeWhile_append_dropWhile isPySpace s.toList
    have h2 := List.takeWhile_append_dropWhile isPySpace
      (s.toList.dropWhile isPySpace).reverse
    have h3 := congrArg List.reverse h2
    rw [List.reverse_append, List.reverse_reverse] at h3
    rw [e, List.append_assoc]
    conv_lhs => rw [← h1]
    congr 1
    exact h3.symm
  · rw [List.all_eq_true]
    intro x hx
    exact List.mem_takeWhile_imp hx
  · rw [List.all_eq_true]
    intro x hx
    rw [List.mem_reverse] at hx
    exact List.mem_takeWhile_imp hx

/-- Claim C7: on the happy path the text field of the response is exactly
the text field of the model result with surrounding whitespace trimmed:
the original text is whitespace, then the response text, then whitespace. -/
theorem stt_text_is_stripped_model_text (env : Env) (req : Request)
    (display p content : String) (result : TranscribeResult)
    (hm : env.modelLoaded = true)
    (hl : List.lookup (req.language.getD "hi") SUPPORTED_LANGUAGES = some display)
    (hf : allowed_formats.contains (pyLower (splitext req.filename).2) = true)
    (ht : env.tmpName = Except.ok p)
    (hr : env.readResult = Except.ok content)
    (hw : env.writeResult = Except.ok ())
    (htr : env.transcribe p (req.language.getD "hi") = Except.ok result) :
    ∃ body, (speech_to_text env req).1 = Outcome.success body ∧
      body.text = pyStrip result.text ∧
      ∃ a b, result.text.toList = a ++ body.text.toList ++ b ∧
        a.all isPySpace = true ∧ b.all isPySpace = true := by
  refine ⟨SuccessBody.mk true (pyStrip result.text) (req.language.getD "hi")
      display req.filename, ?_, rfl, pyStrip_sandwich result.text⟩
  have hf2 : pyLower (splitext req.filename).2 ∈ allowed_formats := by simpa using hf
  cases hrm : env.removeResult <;>
    simp [speech_to_text, cleanupFinally, hm, hl, hf2, ht, hr, hw, htr, hrm]

/-- Witness for stt_text_is_stripped_model_text at a concrete run. -/
theorem stt_text_is_stripped_model_text_witness :
    ∃ body, (speech_to_text envOk reqOk).1 = Outcome.success body ∧
      body.text = pyStrip "  namaste duniya  " ∧
      ∃ a b, "  namaste duniya  ".toList = a ++ body.text.toList ++ b ∧
        a.all isPySpace = true ∧ b.all isPySpace = true :=
  stt_text_is_stripped_model_text envOk reqOk "Hindi" "/tmp/tmp123.wav"
    "RIFFbytes" { text := "  namaste duniya  " } rfl rfl (by decide) rfl rfl rfl rfl

/-- Claim C8: when the model invocation fails with some message, the
endpoint returns 500 with a detail embedding that message verbatim, the
model was invoked exactly once in that request, and in no request is the
model ever invoked more than once. -/
theorem stt_transcription_failure (env : Env) (req : Request)
    (display p content msg : String)
    (hm : env.modelLoaded = true)
    (hl : List.lookup (req.language.getD "hi") SUPPORTED_LANGUAGES = some display)
    (hf : allowed_formats.contains (pyLower (splitext req.filename).2) = true)
    (ht : env.tmpName = Except.ok p)
    (hr : env.readResult = Except.ok content)
    (hw : env.writeResult = Except.ok ())
    (htr : env.transcribe p (req.language.getD "hi") = Except.error msg) :
    (speech_to_text env req).1 =
      Outcome.httpError 500 ("Transcription failed: " ++ msg) ∧
    msg.toList <:+: ("Transcription failed: " ++ msg).toList ∧
    transcribeCalls (speech_to_text env req).2 = 1 ∧
    ∀ env2 req2, transcribeCalls (speech_to_text env2 req2).2 ≤ 1 := by
  have hf2 : pyLower (splitext req.filename).2 ∈ allowed_formats := by simpa using hf
  refine ⟨?_, ?_, ?_, ?_⟩
  · cases hrm : env.removeResult <;>
      simp [speech_to_text, cleanupFinally, hm, hl, hf2, ht, hr, hw, htr, hrm]
  · rw [toList_append]
    exact (List.suffix_append _ _).isInfix
  · cases hrm : env.removeResult <;>
      simp [speech_to_text, cleanupFinally, hm, hl, hf2, ht, hr, hw, htr, hrm,
        transcribeCalls, isTranscribeEvent, List.countP_cons, List.countP_nil,
        List.countP_append]
  · intro env2 req2
    simp only [speech_to_text, cleanupFinally]
    repeat' split
    all_goals
      simp [transcribeCalls, isTranscribeEvent, List.countP_cons, List.countP_nil,
        List.countP_append]

/-- Witness for stt_transcription_failure at a concrete failing model. -/
theorem stt_transcription_failure_witness :
    (speech_to_text envFail reqOk).1 =
      Outcome.httpError 500 ("Transcription failed: " ++ "Failed to load audio") ∧
    "Failed to load audio".toList <:+:
      ("Transcription failed: " ++ "Failed to load audio").toList ∧
    transcribeCalls (speech_to_text envFail reqOk).2 = 1 ∧
    ∀ env2 req2, transcribeCalls (speech_to_text env2 req2).2 ≤ 1 :=
  stt_transcription_failure envFail reqOk "Hindi" "/tmp/tmp123.wav" "RIFFbytes"
    "Failed to load audio" rfl rfl (by decide) rfl rfl rfl rfl

/-- Helper: the handler reads the request only through its filename and
its defaulted language code. -/
theorem speech_to_text_req_congr (env : Env) (req1 req2 : Request)
    (hfn : req1.filename = req2.filename)
    (hlang : req1.language.getD "hi" = req2.language.getD "hi") :
    speech_to_text env req1 = speech_to_text env req2 := by
  unfold speech_to_text
  rw [hfn, hlang]

/-- Claim C9: a request without the language form field is handled exactly
as the same request with language hi, and such a request never fails
language validation. -/
theorem stt_default_language_hi (env : Env) (req : Request)
    (h : req.language = none) :
    speech_to_text env req = speech_to_text env { req with language := some "hi" } ∧
    (speech_to_text env req).1 ≠ Outcome.httpError 400 (languageErrorDetail "hi") := by
  have e : speech_to_text env req =
      speech_to_text env { req with language := some "hi" } :=
    speech_to_text_req_congr env req { req with language := some "hi" } rfl
      (by rw [h]; rfl)
  refine ⟨e, ?_⟩
  rw [e]
  have hd : List.lookup "hi" SUPPORTED_LANGUAGES = some "Hindi" := rfl
  have hfd : ¬ (formatErrorDetail = languageErrorDetail "hi") := by decide
  simp only [speech_to_text, cleanupFinally, Option.getD_some, hd]
  repeat' split
  all_goals simp_all

/-- Witness for stt_default_language_hi at a request with no language
field. -/
theorem stt_default_language_hi_witness :
    speech_to_text envOk reqNoLang =
      speech_to_text envOk { reqNoLang with language := some "hi" } ∧
    (speech_to_text envOk reqNoLang).1 ≠
      Outcome.httpError 400 (languageErrorDetail "hi") :=
  stt_default_language_hi envOk reqNoLang rfl

end BharatSTT
